import Mathlib

/-!
Verification of the attribute-extraction and state-convergence core of the
terraform-provider-opennebula repository, against its natural-language design
specification.

The XML flattening parser (`parseResponse` / `parseSubTree`) is embedded at the
token level: the Go code consumes tokens delivered by `encoding/xml.Decoder`,
which is an external library, so a document is modelled as the list of
tokens the decoder delivers for it, followed by how the token stream ends
(normal exhaustion, i.e. `io.EOF`, or a syntax error for a malformed or
truncated document). Go maps with string keys are modelled as association
lists with unique keys; `nil` maps and `nil` error results are modelled with
`Option`.
-/

namespace ONE

/-- One XML token as delivered by the decoder: start tag, character data and
end tag carry the data the Go code reads (`Name.Local`, the character bytes);
`other` stands for the token kinds (comments, processor instructions,
directives) that fall through the Go `switch` statements untouched. -/
inductive XmlToken where
  | startElement (name : String)
  | charData (data : String)
  | endElement (name : String)
  | other
deriving DecidableEq, Repr

/-- How the decoder's token stream ends once no token is left: `eof` models
`decoder.Token()` returning `(nil, io.EOF)` on a fully consumed document,
`malformed` models a syntax error from a truncated or ill-formed document. -/
inductive StreamEnd where
  | eof
  | malformed
deriving DecidableEq, Repr

/-- A Go `map[string]string`, as an association list with unique keys. -/
abbrev AttrMap := List (String × String)

/-- Lookup in a Go string map: `v, ok := m[k]`. -/
def mapLookup : AttrMap → String → Option String
  | [], _ => none
  | (k, v) :: rest, key => if k = key then some v else mapLookup rest key

/-- Reading a Go string map with the zero value default: `m[k]` yields `""`
when the key is absent (also on a `nil` map). -/
def mapGet (m : AttrMap) (k : String) : String := (mapLookup m k).getD ""

/-- Assignment `m[k] = v` on a Go string map: replaces the value in place if
the key is present, appends the key otherwise. -/
def mapInsert : AttrMap → String → String → AttrMap
  | [], key, value => [(key, value)]
  | (k, v) :: rest, key, value =>
      if k = key then (k, value) :: rest else (k, v) :: mapInsert rest key value

/-- Embedding of `strings.TrimSpace` from the Go standard library: drop
leading and trailing whitespace characters. (Go trims by `unicode.IsSpace`;
`Char.isWhitespace` covers the ASCII whitespace — space, tab, carriage
return, newline — which is all that XML-decoder character data in this
domain contains.) -/
def goTrimSpace (s : String) : String :=
  ⟨((s.data.dropWhile Char.isWhitespace).reverse.dropWhile Char.isWhitespace).reverse⟩

/-- Source constant `PathSeparator`. -/
def PathSeparator : String := "/"

/-- Source constant `ValueSepartor` (sic, the source's spelling). -/
def ValueSepartor : String := " "

/-- Source constant `VmElementName`. -/
def VmElementName : String := "VM"

/-- Source constant `StateAttribute`. -/
def StateAttribute : String := "STATE"

/-- Source constant `LcmStateAttribute`. -/
def LcmStateAttribute : String := "LCM_STATE"

/-- The result of `parseResponse` / `parseSubTree`: `ret a e` models the Go
return `(a, e)` where a `nil` map is `none` and a `nil` error is `none`;
`panicked` models the index-out-of-range panic that `parseSubTree` raises when
an end tag arrives while the path stack is empty and its name differs from the
root name (`path[len(path)-1]` on an empty slice). -/
inductive GoOutcome where
  | ret (attributes : Option AttrMap) (error : Option StreamEnd)
  | panicked
deriving DecidableEq, Repr

/-- Embedding of `parseSubTree` (src/unnamed/part_002, lines 26 to 56). It
folds over the remaining token list; reaching the list end models
`decoder.Token()` returning the stream's terminating error. -/
def parseSubTree (endEl : String) : List XmlToken → StreamEnd → List String → AttrMap → GoOutcome
  | [], stop, _, _ => .ret none (some stop)
  | .startElement n :: rest, stop, path, attrs =>
      parseSubTree endEl rest stop (path ++ [n]) attrs
  | .charData s :: rest, stop, path, attrs =>
      let value := goTrimSpace s
      if value.length > 0 ∧ path.length > 0 then
        let key := String.intercalate PathSeparator path
        let value := match mapLookup attrs key with
          | some presentValue => presentValue ++ ValueSepartor ++ value
          | none => value
        parseSubTree endEl rest stop path (mapInsert attrs key value)
      else
        parseSubTree endEl rest stop path attrs
  | .endElement n :: rest, stop, path, attrs =>
      if n = endEl then .ret (some attrs) none
      else
        match path.getLast? with
        | some top =>
            if top = n then parseSubTree endEl rest stop path.dropLast attrs
            else parseSubTree endEl rest stop path attrs
        | none => .panicked
  | .other :: rest, stop, path, attrs => parseSubTree endEl rest stop path attrs

/-- Embedding of `parseResponse` (src/unnamed/part_002, lines 9 to 24): scan
for the first start tag whose local name equals `startEl`, then flatten its
subtree; if the stream ends first, return `(nil, err)` with the stream's
terminating error. -/
def parseResponse (tokens : List XmlToken) (stop : StreamEnd) (startEl : String) : GoOutcome :=
  match tokens with
  | [] => .ret none (some stop)
  | .startElement n :: rest =>
      if n = startEl then parseSubTree n rest stop [] [] else parseResponse rest stop startEl
  | .charData _ :: rest => parseResponse rest stop startEl
  | .endElement _ :: rest => parseResponse rest stop startEl
  | .other :: rest => parseResponse rest stop startEl

/-- Whether a `GoOutcome` models a Go return with a non-nil error. -/
def returnedError : GoOutcome → Bool
  | .ret _ (some _) => true
  | _ => false

/-- The attribute map component of a `GoOutcome` (none for a panic). -/
def returnedAttributes : GoOutcome → Option AttrMap
  | .ret a _ => a
  | .panicked => none

/-- Token stream of Scenario A,
`<VM><PARENT><CHILD>child value</CHILD> parent value</PARENT></VM>`. -/
def scenarioA : List XmlToken :=
  [.startElement "VM", .startElement "PARENT", .startElement "CHILD",
   .charData "child value", .endElement "CHILD", .charData " parent value",
   .endElement "PARENT", .endElement "VM"]

/-- Token stream of Scenario B,
`<ROOT><WRAP><VM><E>value</E></VM></WRAP></ROOT>`. -/
def scenarioB : List XmlToken :=
  [.startElement "ROOT", .startElement "WRAP", .startElement "VM",
   .startElement "E", .charData "value", .endElement "E", .endElement "VM",
   .endElement "WRAP", .endElement "ROOT"]

/-- Token stream of `<VM><A><VM><B>x</B></VM><C>y</C></A></VM>`: the root
element name occurs again nested inside the located root's subtree. -/
def nestedRootDoc : List XmlToken :=
  [.startElement "VM", .startElement "A", .startElement "VM",
   .startElement "B", .charData "x", .endElement "B", .endElement "VM",
   .startElement "C", .charData "y", .endElement "C", .endElement "A",
   .endElement "VM"]

/-- Token stream of `<VM><E>a</E><E>b</E></VM>`: two sibling elements with the
same slash-joined path. -/
def repeatedSiblingDoc : List XmlToken :=
  [.startElement "VM", .startElement "E", .charData "a", .endElement "E",
   .startElement "E", .charData "b", .endElement "E", .endElement "VM"]

/-- Tokens the decoder delivers for `<VM><SOME_ELEMENT>some value</VM>`
(the test input of TestParsingInvalidResponse) before it reports the
mismatched end tag as a syntax error. -/
def invalidDoc : List XmlToken :=
  [.startElement "VM", .startElement "SOME_ELEMENT", .charData "some value"]

/-- Token stream of `<PARENT_ELEMENT><CHILD_ELEMENT>child value</CHILD_ELEMENT></PARENT_ELEMENT>`
(the test input of TestParsingResponseNoStartElement). -/
def noRootDoc : List XmlToken :=
  [.startElement "PARENT_ELEMENT", .startElement "CHILD_ELEMENT",
   .charData "child value", .endElement "CHILD_ELEMENT",
   .endElement "PARENT_ELEMENT"]

/-- Error component of a `loadVMInfo` result: either a parse-level failure
(the stream's terminating error passed through `parseResponse`) or the RPC
collaborator's transport error, carried by its message. -/
inductive LoadErr where
  | parseFailed (s : StreamEnd)
  | transport (msg : String)
deriving DecidableEq, Repr

/-- Result of `loadVMInfo`, mirroring `GoOutcome` with the richer error type. -/
inductive LoadOutcome where
  | ret (attributes : Option AttrMap) (error : Option LoadErr)
  | panicked
deriving DecidableEq, Repr

/-- Embedding of `loadVMInfo` (src/unnamed/part_003, lines 349 to 357). The
RPC call `client.Call("one.vm.info", id)` is the external collaborator; its
result is a parameter: on success the returned XML string, given as the token
stream the decoder delivers for it; on failure the transport error message.
On success the code parses the response with root `VmElementName`; on failure
it returns `(nil, err)` with the collaborator's error untouched. -/
def loadVMInfo (callResult : Except String (List XmlToken × StreamEnd)) : LoadOutcome :=
  match callResult with
  | .ok (ts, stop) =>
      match parseResponse ts stop VmElementName with
      | .ret a none => .ret a none
      | .ret a (some e) => .ret a (some (.parseFailed e))
      | .panicked => .panicked
  | .error msg => .ret none (some (.transport msg))

/-- One return of a `Refresh` closure of a `resource.StateChangeConf`:
`ok value label` models `return value, label, nil` (a `nil` interface value is
`none`), `err msg` models `return nil, "", err`, and `crashed` propagates a
parser panic. -/
inductive RefreshOutcome where
  | ok (value : Option AttrMap) (label : String)
  | err (msg : String)
  | crashed
deriving DecidableEq, Repr

/-- Embedding of the `Refresh` closure of `waitForVmState`
(src/unnamed/part_003, lines 291 to 309): with a non-empty resource id it
loads the VM info; on a load error it returns the new error
`"Could not find VM by ID <id>"`; otherwise it classifies the attribute map:
label `"running"` when `STATE` and `LCM_STATE` both read `"3"`, label
`"done"` when `STATE` reads `"6"`, else the pending label `"anythingelse"`
with a nil value. An empty id skips the load and reports pending. -/
def vmStateRefresh (id : String) (load : LoadOutcome) : RefreshOutcome :=
  if id = "" then .ok none "anythingelse"
  else
    match load with
    | .ret a none =>
        let attributes := a.getD []
        let state := mapGet attributes StateAttribute
        let lcmState := mapGet attributes LcmStateAttribute
        if state = "3" ∧ lcmState = "3" then .ok (some attributes) "running"
        else if state = "6" then .ok (some attributes) "done"
        else .ok none "anythingelse"
    | .ret _ (some _) => .err ("Could not find VM by ID " ++ id)
    | .panicked => .crashed

/-- Result of one wait call of the convergence engine. -/
inductive WaitResult where
  | success (value : Option AttrMap)
  | failure (msg : String)
  | timedOut
  | crashed
deriving DecidableEq, Repr

/-- Modelled from the spec: the generic polling engine
(`resource.StateChangeConf.WaitForState` of the terraform helper library) is
not part of src, only the probe closures built for it are. Per spec section
4.2 the loop repeatedly invokes the probe: an `Error` outcome fails the wait
immediately and surfaces that error; a `Reached` outcome whose label equals
the target returns the observed data; otherwise the loop sleeps and retries
until the time budget is exhausted, which yields `Timeout`. The finite list
argument is the sequence of probe outcomes the loop would observe before its
timeout. -/
def waitForState (target : String) : List RefreshOutcome → WaitResult
  | [] => .timedOut
  | .ok v label :: rest =>
      if label = target then .success v else waitForState target rest
  | .err m :: _ => .failure m
  | .crashed :: _ => .crashed

/-- Digit-string accumulator for `goAtoi`: consumes decimal digits, failing on
the first non-digit character. -/
def digitsToNatAux : List Char → Nat → Option Nat
  | [], acc => some acc
  | c :: rest, acc =>
      if c.isDigit then digitsToNatAux rest (acc * 10 + (c.toNat - 48)) else none

/-- Value of a non-empty all-digit character list; `none` when empty or when
any character is not a decimal digit. -/
def digitsToNat : List Char → Option Nat
  | [] => none
  | cs => digitsToNatAux cs 0

/-- Embedding of `strconv.Atoi` from the Go standard library (64-bit `int`):
an optional single sign followed by at least one decimal digit, rejecting
anything else and values outside the 64-bit signed range. -/
def goAtoi (s : String) : Option Int :=
  match s.data with
  | [] => none
  | c :: rest =>
      if c = '+' then
        match digitsToNat rest with
        | some n => if n ≤ 9223372036854775807 then some (Int.ofNat n) else none
        | none => none
      else if c = '-' then
        match digitsToNat rest with
        | some n => if n ≤ 9223372036854775808 then some (-(Int.ofNat n)) else none
        | none => none
      else
        match digitsToNat (c :: rest) with
        | some n => if n ≤ 9223372036854775807 then some (Int.ofNat n) else none
        | none => none

/-- The message `convertToInt` passes to `log.Fatalf` for a non-integer
value. -/
def convertFatalMessage (value : String) : String :=
  "Unexpected value " ++ (Char.ofNat 39).toString ++ value ++ (Char.ofNat 39).toString
    ++ " received from OpenNebula. Expected an integer"

/-- Result of `convertToInt`: `fatal` models `log.Fatalf`, which terminates
the entire process. -/
inductive ConvertResult where
  | value (n : Int)
  | fatal (msg : String)
deriving DecidableEq, Repr

/-- Embedding of `convertToInt` (src/unnamed/part_003, lines 222 to 229):
`strconv.Atoi` the value; on error, `log.Fatalf` with the message above. -/
def convertToInt (value : String) : ConvertResult :=
  match goAtoi value with
  | some i => .value i
  | none => .fatal (convertFatalMessage value)

/-- `convertToInt` as an `Except`, so that a fatal conversion short-circuits
the remaining conversions of `saveVmInfoToState` the way `log.Fatalf` ends
the process before any later statement runs. -/
def convE (value : String) : Except String Int :=
  match convertToInt value with
  | .value i => .ok i
  | .fatal m => .error m

/-- The `Permissions` struct populated by `buildPermissions`. -/
structure Permissions where
  Owner_U : Int
  Owner_M : Int
  Owner_A : Int
  Group_U : Int
  Group_M : Int
  Group_A : Int
  Other_U : Int
  Other_M : Int
  Other_A : Int
deriving DecidableEq, Repr

/-- Embedding of `buildPermissions` (src/unnamed/part_003, lines 206 to 220):
convert the nine `PERMISSIONS/*` attribute values, in source order. -/
def buildPermissions (attributes : AttrMap) : Except String Permissions := do
  let ou ← convE (mapGet attributes "PERMISSIONS/OWNER_U")
  let om ← convE (mapGet attributes "PERMISSIONS/OWNER_M")
  let oa ← convE (mapGet attributes "PERMISSIONS/OWNER_A")
  let gu ← convE (mapGet attributes "PERMISSIONS/GROUP_U")
  let gm ← convE (mapGet attributes "PERMISSIONS/GROUP_M")
  let ga ← convE (mapGet attributes "PERMISSIONS/GROUP_A")
  let tu ← convE (mapGet attributes "PERMISSIONS/OTHER_U")
  let tm ← convE (mapGet attributes "PERMISSIONS/OTHER_M")
  let ta ← convE (mapGet attributes "PERMISSIONS/OTHER_A")
  return ⟨ou, om, oa, gu, gm, ga, tu, tm, ta⟩

/-- Source constant `DefaultIpAttribute`. -/
def DefaultIpAttribute : String := "TEMPLATE/CONTEXT/ETH0_IP"

/-- The terraform state fields `saveVmInfoToState` writes. The source then
renders `permissions` through `permissionString`, a helper outside src; the
struct it consumes is kept here. -/
structure VmStateData where
  instanceName : String
  uid : Int
  gid : Int
  uname : String
  gname : String
  state : Int
  lcmstate : Int
  ip : String
  permissions : Permissions
deriving DecidableEq, Repr

/-- Embedding of `saveVmInfoToState` (src/unnamed/part_003, lines 189 to
204): reads each field out of the flattened attribute map, converting the
numeric ones with `convertToInt` in source order (`UID`, `GID`, `STATE`,
`LCM_STATE`, then the nine `PERMISSIONS/*` values via `buildPermissions`);
a failed conversion is a process-terminating `log.Fatalf`, modelled as the
`Except.error` short-circuit. `ip0` is the `ip_attribute` value read from the
resource state, defaulted to `DefaultIpAttribute` when empty. -/
def saveVmInfoToState (attributes : AttrMap) (ip0 : String) : Except String VmStateData := do
  let uid ← convE (mapGet attributes "UID")
  let gid ← convE (mapGet attributes "GID")
  let state ← convE (mapGet attributes StateAttribute)
  let lcmstate ← convE (mapGet attributes LcmStateAttribute)
  let perms ← buildPermissions attributes
  return { instanceName := mapGet attributes "NAME"
           uid := uid
           gid := gid
           uname := mapGet attributes "UNAME"
           gname := mapGet attributes "GNAME"
           state := state
           lcmstate := lcmstate
           ip := mapGet attributes (if ip0 = "" then DefaultIpAttribute else ip0)
           permissions := perms }

/-- The thirteen attribute keys whose values `saveVmInfoToState` feeds to
`convertToInt`. -/
def vmInfoConvertedKeys : List String :=
  ["UID", "GID", StateAttribute, LcmStateAttribute,
   "PERMISSIONS/OWNER_U", "PERMISSIONS/OWNER_M", "PERMISSIONS/OWNER_A",
   "PERMISSIONS/GROUP_U", "PERMISSIONS/GROUP_M", "PERMISSIONS/GROUP_A",
   "PERMISSIONS/OTHER_U", "PERMISSIONS/OTHER_M", "PERMISSIONS/OTHER_A"]

/-- Whether an `Except` is a success. -/
def exceptIsOk {α : Type} : Except String α → Bool
  | .ok _ => true
  | .error _ => false

/-- Embedding of `strings.ToUpper` from the Go standard library, for the
ASCII attribute names of this domain: map each character to upper case. -/
def goToUpper (s : String) : String := ⟨s.data.map Char.toUpper⟩

/-- Modelled from the spec: `synchronizeUserTemplateAttributes` itself is not
under src — only its unit tests (src/opennebula/resource_vm_test.go) and its
caller are. Spec section 4.3: for every key of the declared mapping (a nil
declared mapping acts as empty), emit that key with the observed value found
under the composite key built from the observed-key path start `pfx`,
otherwise the empty string; observed-only keys are ignored; a nil observed
mapping acts as empty. One adjustment the in-repo unit test forces: in
`TestSynchronizeUserTemplateAttributes` the declared key `"attr1"` must
resolve to the value stored under `"USER_TEMPLATE/ATTR1"`, so the composite
key uppercases the declared key. The declared
mapping is `map[string]interface{}` in Go; only its keys are read, so it is
modelled as a key/value list whose values are ignored. -/
def synchronizeUserTemplateAttributes (declared : Option (List (String × String)))
    (observed : Option AttrMap) (pfx : String) : AttrMap :=
  (declared.getD []).map
    (fun kv => (kv.1, mapGet (observed.getD []) (pfx ++ PathSeparator ++ goToUpper kv.1)))

/-- Reconciliation following the literal words of spec section 4.3 and of the
claim: the composite key is `pfx ++ "/" ++ key` with no case adjustment.
Kept beside `synchronizeUserTemplateAttributes` to compare the claim's
wording with the behavior the in-repo unit test pins down. -/
def synchronizeSpecLiteral (declared : Option (List (String × String)))
    (observed : Option AttrMap) (pfx : String) : AttrMap :=
  (declared.getD []).map
    (fun kv => (kv.1, mapGet (observed.getD []) (pfx ++ PathSeparator ++ kv.1)))

/-- C1 counterexample: on `<VM><A><VM><B>x</B></VM><C>y</C></A></VM>` with
root `"VM"`, `parseResponse` terminates the parse at the inner `</VM>` close
tag and returns successfully with only `"A/VM/B"`; the element `<C>y</C>`
after the inner close tag is never flattened (no `"A/C"` key), so the parse
does not track nesting depth of the root element name and does not continue
past the inner same-named element's close tag. -/
theorem parseSubTree_inner_close_terminates_cex :
    parseResponse nestedRootDoc StreamEnd.eof "VM" =
      GoOutcome.ret (some [("A/VM/B", "x")]) none
    ∧ mapLookup [("A/VM/B", "x")] "A/C" = none :=
  ⟨rfl, rfl⟩

/-- C1 (amended): the code does not track nesting depth of the root element
name; inside the located root's subtree, the first end tag whose local name
equals the root element name terminates the parse at once — whatever the
current open-element path is, so also when it closes an inner same-named
element — returning the attributes accumulated so far. -/
theorem parseSubTree_first_matching_close_returns (endEl : String)
    (rest : List XmlToken) (stop : StreamEnd) (path : List String) (attrs : AttrMap) :
    parseSubTree endEl (XmlToken.endElement endEl :: rest) stop path attrs =
      GoOutcome.ret (some attrs) none := by
  simp [parseSubTree]

/-- C4: inside the located root subtree, a run of character data creates or
extends a map entry exactly when the whitespace-trimmed text and the
open-element path are both non-empty, the key is the slash-joined path, and a
new trimmed run is appended to an existing value separated by the single
space `ValueSepartor`, in document order (existing value first); and
Scenario A, `<VM><PARENT><CHILD>child value</CHILD> parent value</PARENT></VM>`
with root `"VM"`, yields exactly the two entries `"PARENT" = "parent value"`
and `"PARENT/CHILD" = "child value"` — the whitespace-only runs of the
pretty-printed variants never contribute. -/
theorem parseSubTree_charData_rule_and_scenarioA :
    (∀ (endEl s : String) (rest : List XmlToken) (stop : StreamEnd)
        (path : List String) (attrs : AttrMap),
      parseSubTree endEl (XmlToken.charData s :: rest) stop path attrs =
        if (goTrimSpace s).length > 0 ∧ path.length > 0 then
          parseSubTree endEl rest stop path
            (mapInsert attrs (String.intercalate PathSeparator path)
              (match mapLookup attrs (String.intercalate PathSeparator path) with
                | some presentValue => presentValue ++ ValueSepartor ++ goTrimSpace s
                | none => goTrimSpace s))
        else parseSubTree endEl rest stop path attrs)
    ∧ parseResponse scenarioA StreamEnd.eof "VM" =
        GoOutcome.ret (some [("PARENT/CHILD", "child value"), ("PARENT", "parent value")]) none :=
  ⟨fun _ _ _ _ _ _ => rfl, rfl⟩

/-- C5: `parseResponse` skips every token before the first start tag whose
name equals the root element name — wrapper elements at any depth contribute
nothing, the subtree flattening starts with an empty path and empty map —
and Scenario B, `<ROOT><WRAP><VM><E>value</E></VM></WRAP></ROOT>` with root
`"VM"`, succeeds and yields exactly `"E" = "value"`. -/
theorem parseResponse_skips_wrappers_and_scenarioB :
    (∀ (ts rest : List XmlToken) (stop : StreamEnd) (root : String),
      (∀ n, XmlToken.startElement n ∈ ts → n ≠ root) →
      parseResponse (ts ++ XmlToken.startElement root :: rest) stop root =
        parseSubTree root rest stop [] [])
    ∧ parseResponse scenarioB StreamEnd.eof "VM" =
        GoOutcome.ret (some [("E", "value")]) none := by
  constructor
  · intro ts rest stop root h
    induction ts with
    | nil => simp [parseResponse]
    | cons t ts ih =>
      cases t with
      | startElement n =>
        have hn : n ≠ root := h n (List.mem_cons_self _ _)
        simpa [parseResponse, hn] using
          ih (fun m hm => h m (List.mem_cons_of_mem _ hm))
      | charData s =>
        simpa [parseResponse] using ih (fun m hm => h m (List.mem_cons_of_mem _ hm))
      | endElement n =>
        simpa [parseResponse] using ih (fun m hm => h m (List.mem_cons_of_mem _ hm))
      | other =>
        simpa [parseResponse] using ih (fun m hm => h m (List.mem_cons_of_mem _ hm))
  · rfl

/-- C5 witness: Scenario B's document is two wrapper start tags followed by
the root start tag; the parse equals the subtree flattening started with an
empty path. -/
theorem parseResponse_skips_wrappers_witness :
    parseResponse
      ([XmlToken.startElement "ROOT", XmlToken.startElement "WRAP"] ++
        XmlToken.startElement "VM" ::
          [XmlToken.startElement "E", XmlToken.charData "value", XmlToken.endElement "E",
           XmlToken.endElement "VM", XmlToken.endElement "WRAP", XmlToken.endElement "ROOT"])
      StreamEnd.eof "VM" =
      parseSubTree "VM"
        [XmlToken.startElement "E", XmlToken.charData "value", XmlToken.endElement "E",
         XmlToken.endElement "VM", XmlToken.endElement "WRAP", XmlToken.endElement "ROOT"]
        StreamEnd.eof [] [] :=
  parseResponse_skips_wrappers_and_scenarioB.1
    [XmlToken.startElement "ROOT", XmlToken.startElement "WRAP"]
    [XmlToken.startElement "E", XmlToken.charData "value", XmlToken.endElement "E",
     XmlToken.endElement "VM", XmlToken.endElement "WRAP", XmlToken.endElement "ROOT"]
    StreamEnd.eof "VM" (by intro n hn; simp at hn; rcases hn with rfl | rfl <;> decide)

/-- C9: repeated elements with the same slash-joined path merge into a single
map entry: `<VM><E>a</E><E>b</E></VM>` with root `"VM"` yields exactly the one
entry `"E" = "a b"` (document-order concatenation separated by one space);
and in general re-assigning an existing key with `mapInsert` never changes
the key set, so a repeated path can only extend the single entry. -/
theorem parseSubTree_repeated_path_merge :
    parseResponse repeatedSiblingDoc StreamEnd.eof "VM" =
      GoOutcome.ret (some [("E", "a b")]) none
    ∧ (∀ (attrs : AttrMap) (key v newValue : String), mapLookup attrs key = some v →
        (mapInsert attrs key newValue).map Prod.fst = attrs.map Prod.fst) := by
  refine ⟨rfl, ?_⟩
  intro attrs key v newValue h
  induction attrs with
  | nil => simp [mapLookup] at h
  | cons kv rest ih =>
    obtain ⟨k0, v0⟩ := kv
    by_cases hk : k0 = key
    · simp [mapInsert, hk]
    · simp only [mapLookup, if_neg hk] at h
      simp [mapInsert, hk, ih h]

/-- C9 witness: re-assigning the present key `"E"` keeps the key set. -/
theorem parseSubTree_repeated_path_merge_witness :
    (mapInsert [("E", "a")] "E" "a b").map Prod.fst =
      ([("E", "a")] : AttrMap).map Prod.fst :=
  parseSubTree_repeated_path_merge.2 [("E", "a")] "E" "a" "a b" rfl

/-- Helper: every error return of `parseSubTree` carries a `nil` attribute
map — the only successful return site is the matching close tag, and every
error site returns `(nil, err)`. -/
theorem parseSubTree_error_no_map (endEl : String) :
    ∀ (ts : List XmlToken) (stop : StreamEnd) (path : List String) (attrs : AttrMap),
      returnedError (parseSubTree endEl ts stop path attrs) = true →
      returnedAttributes (parseSubTree endEl ts stop path attrs) = none := by
  intro ts
  induction ts with
  | nil => intro stop path attrs _; rfl
  | cons t rest ih =>
    intro stop path attrs h
    cases t with
    | startElement n =>
      simp only [parseSubTree] at h ⊢
      exact ih stop (path ++ [n]) attrs h
    | charData s =>
      simp only [parseSubTree] at h ⊢
      split at h
      · rename_i hc
        simp only [if_pos hc]
        exact ih stop path _ h
      · rename_i hc
        simp only [if_neg hc]
        exact ih stop path attrs h
    | endElement n =>
      simp only [parseSubTree] at h ⊢
      by_cases hn : n = endEl
      · simp [if_pos hn, returnedError] at h
      · simp only [if_neg hn] at h ⊢
        cases hl : path.getLast? with
        | some top =>
          simp only [hl] at h ⊢
          by_cases ht : top = n
          · simp only [if_pos ht] at h ⊢
            exact ih stop path.dropLast attrs h
          · simp only [if_neg ht] at h ⊢
            exact ih stop path attrs h
        | none => simp only [hl] at h ⊢; rfl
    | other =>
      simp only [parseSubTree] at h ⊢
      exact ih stop path attrs h

/-- C2: whenever `parseResponse` returns a non-nil error — the token stream
erroring, or the stream ending before the matching root end tag — the
returned attribute map is `nil`, never a partially populated map: on the
error paths `parseResponse` and `parseSubTree` return `(nil, err)`,
discarding the map built so far. -/
theorem parseResponse_error_yields_no_map (ts : List XmlToken) (stop : StreamEnd)
    (root : String) (h : returnedError (parseResponse ts stop root) = true) :
    returnedAttributes (parseResponse ts stop root) = none := by
  induction ts with
  | nil => rfl
  | cons t rest ih =>
    cases t with
    | startElement n =>
      by_cases hn : n = root
      · simp only [parseResponse, if_pos hn] at h ⊢
        exact parseSubTree_error_no_map n rest stop [] [] h
      · simp only [parseResponse, if_neg hn] at h ⊢
        exact ih h
    | charData s => simp only [parseResponse] at h ⊢; exact ih h
    | endElement n => simp only [parseResponse] at h ⊢; exact ih h
    | other => simp only [parseResponse] at h ⊢; exact ih h

/-- C2 witness: parsing the malformed test document
`<VM><SOME_ELEMENT>some value</VM>` (TestParsingInvalidResponse) errors after
the entry `"SOME_ELEMENT"` was already accumulated, and the returned map is
nevertheless `nil`. -/
theorem parseResponse_error_yields_no_map_witness :
    returnedAttributes (parseResponse invalidDoc StreamEnd.malformed "VM") = none :=
  parseResponse_error_yields_no_map invalidDoc StreamEnd.malformed "VM" rfl

/-- C3: when no start tag of the document carries the root element name —
which holds for every document when the name is the empty string (no XML
element has an empty local name), and vacuously for an empty or nil document
(no tokens at all) — `parseResponse` returns `(nil, err)` with the error the
exhausted decoder reports, the condition the spec labels
`RootElementNotFound`. -/
theorem parseResponse_root_not_found (ts : List XmlToken) (stop : StreamEnd)
    (root : String) (h : ∀ n, XmlToken.startElement n ∈ ts → n ≠ root) :
    parseResponse ts stop root = GoOutcome.ret none (some stop) := by
  induction ts with
  | nil => rfl
  | cons t rest ih =>
    cases t with
    | startElement n =>
      have hn : n ≠ root := h n (List.mem_cons_self _ _)
      simp only [parseResponse, if_neg hn]
      exact ih (fun m hm => h m (List.mem_cons_of_mem _ hm))
    | charData s => exact ih (fun m hm => h m (List.mem_cons_of_mem _ hm))
    | endElement n => exact ih (fun m hm => h m (List.mem_cons_of_mem _ hm))
    | other => exact ih (fun m hm => h m (List.mem_cons_of_mem _ hm))

/-- C3 witness: the test document of TestParsingResponseNoStartElement with
the empty root element name fails with the stream-exhaustion error. -/
theorem parseResponse_root_not_found_witness :
    parseResponse noRootDoc StreamEnd.eof "" = GoOutcome.ret none (some StreamEnd.eof) :=
  parseResponse_root_not_found noRootDoc StreamEnd.eof ""
    (by intro n hn; simp [noRootDoc] at hn; rcases hn with rfl | rfl <;> decide)

/-- C6: for every attribute map a wait-for-running probe observes (non-empty
resource id, successful load), the probe reports the target label
`"running"` exactly when both `STATE` and `LCM_STATE` read `"3"`, the label
`"done"` exactly when `STATE` reads `"6"` (and hence not both read `"3"`),
and otherwise the pending label `"anythingelse"`. -/
theorem vmStateRefresh_classification (id : String) (a : AttrMap) (h : id ≠ "") :
    (vmStateRefresh id (LoadOutcome.ret (some a) none) =
        RefreshOutcome.ok (some a) "running"
      ↔ mapGet a StateAttribute = "3" ∧ mapGet a LcmStateAttribute = "3")
    ∧ (vmStateRefresh id (LoadOutcome.ret (some a) none) =
        RefreshOutcome.ok (some a) "done"
      ↔ mapGet a StateAttribute = "6"
        ∧ ¬(mapGet a StateAttribute = "3" ∧ mapGet a LcmStateAttribute = "3"))
    ∧ (¬(mapGet a StateAttribute = "3" ∧ mapGet a LcmStateAttribute = "3") →
        mapGet a StateAttribute ≠ "6" →
        vmStateRefresh id (LoadOutcome.ret (some a) none) =
          RefreshOutcome.ok none "anythingelse") := by
  have e : vmStateRefresh id (LoadOutcome.ret (some a) none) =
      (if mapGet a StateAttribute = "3" ∧ mapGet a LcmStateAttribute = "3" then
        RefreshOutcome.ok (some a) "running"
      else if mapGet a StateAttribute = "6" then RefreshOutcome.ok (some a) "done"
      else RefreshOutcome.ok none "anythingelse") := by
    simp [vmStateRefresh, h]
  rw [e]
  by_cases h3 : mapGet a StateAttribute = "3" ∧ mapGet a LcmStateAttribute = "3"
  · have h6 : mapGet a StateAttribute ≠ "6" := by
      intro hx
      exact absurd (h3.1.symm.trans hx) (by decide)
    simp [h3, h6]
  · by_cases h6 : mapGet a StateAttribute = "6"
    · simp [h3, h6]
    · simp [h3, h6]

/-- C6 witness: a map with both state fields at `"3"` classifies as the
target label `"running"` carrying the observed map. -/
theorem vmStateRefresh_classification_witness :
    vmStateRefresh "1" (LoadOutcome.ret (some [("STATE", "3"), ("LCM_STATE", "3")]) none) =
      RefreshOutcome.ok (some [("STATE", "3"), ("LCM_STATE", "3")]) "running" :=
  ((vmStateRefresh_classification "1" [("STATE", "3"), ("LCM_STATE", "3")]
      (by decide)).1).mpr (by decide)

/-- C7 counterexample: the in-repo unit test
TestSynchronizeUserTemplateAttributes requires declared key `"attr1"` to
resolve to the value stored under observed key `"USER_TEMPLATE/ATTR1"`;
the claim's composite key `pfx + "/" + key` (the spec-literal reconciliation)
yields the empty string there instead, because `"USER_TEMPLATE/attr1"` is
absent from the observed map — so the claim's key formula contradicts the
repository's own test. -/
theorem synchronizeUserTemplateAttributes_cex :
    synchronizeUserTemplateAttributes (some [("attr1", "value1")])
        (some [("USER_TEMPLATE/ATTR1", "anotherValue")]) "USER_TEMPLATE" =
      [("attr1", "anotherValue")]
    ∧ synchronizeSpecLiteral (some [("attr1", "value1")])
        (some [("USER_TEMPLATE/ATTR1", "anotherValue")]) "USER_TEMPLATE" =
      [("attr1", "")]
    ∧ (("anotherValue" : String) ≠ "") :=
  ⟨rfl, rfl, by decide⟩

/-- C7 (amended): the reconciliation is a one-directional projection onto the
declared key set — the result has exactly the declared keys, in order; each
key maps to the observed value stored under the composite key
`pfx + "/" + uppercase(key)` when present and to the empty string otherwise;
a nil declared input yields an empty result; a nil observed input maps every
declared key to the empty string; observed-only keys are ignored. Scenario D
(`declared = a,b`, `observed = PFX/a = X`, `pfx = PFX`) therefore yields
`a = ""` and `b = ""`: the lower-case observed key `PFX/a` is not found under
the upper-cased composite key `PFX/A`. -/
theorem synchronizeUserTemplateAttributes_projection
    (declared : Option (List (String × String))) (observed : Option AttrMap)
    (pfx : String) :
    ((synchronizeUserTemplateAttributes declared observed pfx).map Prod.fst =
      (declared.getD []).map Prod.fst)
    ∧ (∀ k v, (k, v) ∈ synchronizeUserTemplateAttributes declared observed pfx →
        v = mapGet (observed.getD []) (pfx ++ PathSeparator ++ goToUpper k))
    ∧ synchronizeUserTemplateAttributes none observed pfx = []
    ∧ synchronizeUserTemplateAttributes declared none pfx =
        (declared.getD []).map (fun kv => (kv.1, ""))
    ∧ synchronizeUserTemplateAttributes (some [("a", "1"), ("b", "2")])
        (some [("PFX/a", "X")]) "PFX" = [("a", ""), ("b", "")] := by
  refine ⟨?_, ?_, rfl, rfl, rfl⟩
  · rw [synchronizeUserTemplateAttributes, List.map_map]
    rfl
  · intro k v hkv
    rw [synchronizeUserTemplateAttributes] at hkv
    obtain ⟨kv, _, heq⟩ := List.mem_map.mp hkv
    obtain ⟨h1, h2⟩ := Prod.mk.injEq .. ▸ heq
    rw [← h2, ← h1]

/-- C7 witness: in Scenario D the declared key `"a"` resolves through the
upper-cased composite key, which the observed map does not contain. -/
theorem synchronizeUserTemplateAttributes_projection_witness :
    ("" : String) =
      mapGet ((some [("PFX/a", "X")] : Option AttrMap).getD [])
        ("PFX" ++ PathSeparator ++ goToUpper "a") :=
  (synchronizeUserTemplateAttributes_projection (some [("a", "1"), ("b", "2")])
      (some [("PFX/a", "X")]) "PFX").2.1 "a" "" (by decide)

/-- C8 counterexample: a wait-for-running probe that hits a transport error
with cause `"connection refused"` makes the wait fail with the new message
`"Could not find VM by ID 1"` — a different error that does not carry the
collaborator's cause, refuting "propagated untouched". -/
theorem waitForState_transport_error_cex :
    waitForState "running"
        [vmStateRefresh "1" (LoadOutcome.ret none (some (LoadErr.transport "connection refused")))] =
      WaitResult.failure "Could not find VM by ID 1"
    ∧ (("Could not find VM by ID 1" : String) ≠ "connection refused") :=
  ⟨rfl, by decide⟩

/-- C8 (amended): a probe-level transport error still fails the wait
immediately with no retry — the remaining probe budget is never consumed —
but the surfaced failure is the replacement error
`"Could not find VM by ID <id>"` built by the Refresh closure; the
collaborator's cause is discarded there (only `loadVMInfo` itself propagates
the transport error untouched). -/
theorem waitForState_transport_error_immediate (id target cause : String)
    (a : Option AttrMap) (rest : List RefreshOutcome) (h : id ≠ "") :
    loadVMInfo (Except.error cause) =
      LoadOutcome.ret none (some (LoadErr.transport cause))
    ∧ vmStateRefresh id (LoadOutcome.ret a (some (LoadErr.transport cause))) =
        RefreshOutcome.err ("Could not find VM by ID " ++ id)
    ∧ waitForState target
        (RefreshOutcome.err ("Could not find VM by ID " ++ id) :: rest) =
        WaitResult.failure ("Could not find VM by ID " ++ id) := by
  refine ⟨rfl, ?_, rfl⟩
  simp [vmStateRefresh, h]

/-- C8 witness: with id `"1"`, target `"running"` and cause `"boom"`, the
wait fails at once with the replacement message. -/
theorem waitForState_transport_error_immediate_witness :
    waitForState "running" [RefreshOutcome.err ("Could not find VM by ID " ++ "1")] =
      WaitResult.failure ("Could not find VM by ID " ++ "1") :=
  (waitForState_transport_error_immediate "1" "running" "boom" none [] (by decide)).2.2

/-- Helper: a successful `Except` bind splits into a successful first stage
and a successful continuation. -/
theorem except_bind_ok {α β : Type} {x : Except String α} {f : α → Except String β}
    {b : β} (h : x >>= f = Except.ok b) : ∃ a, x = Except.ok a ∧ f a = Except.ok b := by
  cases x with
  | ok a => exact ⟨a, rfl, h⟩
  | error e => exact Except.noConfusion h

/-- Helper: a successful `convE` means `strconv.Atoi` accepted the value. -/
theorem convE_ok_goAtoi {s : String} {i : Int} (h : convE s = Except.ok i) :
    goAtoi s ≠ none := by
  intro hn
  rw [convE, convertToInt, hn] at h
  exact Except.noConfusion h

/-- Helper: a `saveVmInfoToState` run that completes (does not hit
`log.Fatalf`) had every one of the thirteen converted values accepted by
`strconv.Atoi`. -/
theorem saveVmInfoToState_ok_converts (attrs : AttrMap) (ip0 : String)
    (st : VmStateData) (h : saveVmInfoToState attrs ip0 = Except.ok st) :
    ∀ k ∈ vmInfoConvertedKeys, goAtoi (mapGet attrs k) ≠ none := by
  rw [saveVmInfoToState] at h
  obtain ⟨uid, h1, h⟩ := except_bind_ok h
  obtain ⟨gid, h2, h⟩ := except_bind_ok h
  obtain ⟨st3, h3, h⟩ := except_bind_ok h
  obtain ⟨lcm, h4, h⟩ := except_bind_ok h
  obtain ⟨perms, h5, _⟩ := except_bind_ok h
  rw [buildPermissions] at h5
  obtain ⟨ou, p1, h5⟩ := except_bind_ok h5
  obtain ⟨om, p2, h5⟩ := except_bind_ok h5
  obtain ⟨oa, p3, h5⟩ := except_bind_ok h5
  obtain ⟨gu, p4, h5⟩ := except_bind_ok h5
  obtain ⟨gm, p5, h5⟩ := except_bind_ok h5
  obtain ⟨ga, p6, h5⟩ := except_bind_ok h5
  obtain ⟨tu, p7, h5⟩ := except_bind_ok h5
  obtain ⟨tm, p8, h5⟩ := except_bind_ok h5
  obtain ⟨ta, p9, _⟩ := except_bind_ok h5
  intro k hk
  simp only [vmInfoConvertedKeys, StateAttribute, LcmStateAttribute,
    List.mem_cons, List.not_mem_nil, or_false] at hk
  rcases hk with rfl | rfl | rfl | rfl | rfl | rfl | rfl | rfl | rfl | rfl | rfl | rfl | rfl
  · exact convE_ok_goAtoi h1
  · exact convE_ok_goAtoi h2
  · exact convE_ok_goAtoi h3
  · exact convE_ok_goAtoi h4
  · exact convE_ok_goAtoi p1
  · exact convE_ok_goAtoi p2
  · exact convE_ok_goAtoi p3
  · exact convE_ok_goAtoi p4
  · exact convE_ok_goAtoi p5
  · exact convE_ok_goAtoi p6
  · exact convE_ok_goAtoi p7
  · exact convE_ok_goAtoi p8
  · exact convE_ok_goAtoi p9

/-- C10: `convertToInt` ends the process through `log.Fatalf` (the `fatal`
result) on every value `strconv.Atoi` rejects; `saveVmInfoToState` therefore
never completes when any of the thirteen values it converts — `UID`, `GID`,
`STATE`, `LCM_STATE` and the nine `PERMISSIONS/*` values — is not a decimal
integer; and an absent key reads as the empty string (which `strconv.Atoi`
rejects), so a missing key also terminates the process instead of returning
a typed failure to the read operation's caller. -/
theorem convertToInt_fatal_on_non_integer :
    (∀ v, goAtoi v = none → convertToInt v = ConvertResult.fatal (convertFatalMessage v))
    ∧ (∀ (attrs : AttrMap) (ip0 k : String), k ∈ vmInfoConvertedKeys →
        goAtoi (mapGet attrs k) = none →
        exceptIsOk (saveVmInfoToState attrs ip0) = false)
    ∧ (∀ (attrs : AttrMap) (k : String), mapLookup attrs k = none → mapGet attrs k = "")
    ∧ goAtoi "" = none := by
  refine ⟨?_, ?_, ?_, rfl⟩
  · intro v hv
    rw [convertToInt, hv]
  · intro attrs ip0 k hk hnone
    cases hres : saveVmInfoToState attrs ip0 with
    | error e => rw [exceptIsOk]
    | ok st => exact absurd hnone (saveVmInfoToState_ok_converts attrs ip0 st hres k hk)
  · intro attrs k h
    rw [mapGet, h]
    rfl

/-- C10 witness: on an empty attribute map the key `"UID"` is absent, reads
as `""`, `strconv.Atoi` rejects it, and the state save dies fatally. -/
theorem convertToInt_fatal_on_non_integer_witness :
    exceptIsOk (saveVmInfoToState [] "") = false :=
  convertToInt_fatal_on_non_integer.2.1 [] "" "UID" (by decide) rfl

end ONE
